import Mathlib

/-!
Verification of the sampling-and-alerting core of the System-Monitor-Qt5
repository.  Shallow embedding of the C++ sources:

* `src/core/constants.h`      — thresholds and capacities
* `src/core/systemutils.cpp`  — `calculateCPUUsage`, validation helpers
* `src/model/base/basemonitor.cpp`       — `onTimerTick` template method
* `src/model/monitors/cpumonitor.cpp`    — history ring buffer, `setHistorySize`
* `src/model/monitors/memorymonitor.cpp` — memory collection/derivation pipeline
* `src/model/managers/alertmanager.cpp`  — alert log, cooldown state machine

Machine integers (`qint64`, `int`) are embedded as `Int`/`Nat`: all the
quantities involved (tick counters, byte counts, history sizes) stay far
below 2^63, so wraparound never matters.  C++ `double` values are embedded
as `Rat`; every arithmetic operation performed by the embedded code
(comparison, subtraction, division, clamping of quantities of this
magnitude) is exact in IEEE double for the ranges exercised, so `Rat`
is a faithful model.  `QDateTime` values are embedded as `Int`
milliseconds; an invalid (default-constructed) `QDateTime` is `none`,
matching Qt where `invalid.msecsTo(t)` returns 0.
-/

/-- Embeds `MetricStatus` from `src/core/types.h`. -/
inductive MetricStatus where
  | Unknown
  | Normal
  | Warning
  | Critical
  deriving DecidableEq

/-- Embeds `AlertSeverity` from `src/core/types.h`. -/
inductive AlertSeverity where
  | Info
  | Warning
  | Critical
  | Emergency
  deriving DecidableEq

-- Constants from `src/core/constants.h`.

def CPU_WARNING_THRESHOLD : ℚ := 75
def CPU_CRITICAL_THRESHOLD : ℚ := 90
def RAM_WARNING_THRESHOLD : ℚ := 80
def RAM_CRITICAL_THRESHOLD : ℚ := 95
def TEMP_WARNING_THRESHOLD : ℚ := 70
def TEMP_CRITICAL_THRESHOLD : ℚ := 80
def MAX_HISTORY_SIZE : ℕ := 120
def MAX_ALERTS_HISTORY : ℕ := 200

/-- Embeds `AlertManager::ALERT_COOLDOWN_MS` from `src/model/managers/alertmanager.h`. -/
def ALERT_COOLDOWN_MS : ℤ := 30000

/-- Embeds `MemoryMonitor::LOW_MEMORY_THRESHOLD` (bytes) from
`src/model/monitors/memorymonitor.h`. -/
def LOW_MEMORY_THRESHOLD : ℤ := 50 * 1024 * 1024

/-- Qt `qMin(a, b) = (b < a) ? b : a` on doubles. -/
def qMin (a b : ℚ) : ℚ := if b < a then b else a

/-- Qt `qMax(a, b) = (a < b) ? b : a` on doubles. -/
def qMax (a b : ℚ) : ℚ := if a < b then b else a

/-- Qt `qBound(lo, x, hi) = qMax(lo, qMin(hi, x))` on doubles. -/
def qBound (lo x hi : ℚ) : ℚ := qMax lo (qMin hi x)

/-- Qt `qMin` on machine integers. -/
def qMinInt (a b : ℤ) : ℤ := if b < a then b else a

/-- Qt `qMax` on machine integers. -/
def qMaxInt (a b : ℤ) : ℤ := if a < b then b else a

/-- Qt `qBound` on machine integers. -/
def qBoundInt (lo x hi : ℤ) : ℤ := qMaxInt lo (qMinInt hi x)

/-- Embeds `QDateTime::msecsTo`: difference in milliseconds; an invalid
(default-constructed) `QDateTime` makes `msecsTo` return 0. -/
def msecsTo (lastTime : Option ℤ) (now : ℤ) : ℤ :=
  match lastTime with
  | none => 0
  | some t => now - t

namespace SystemUtils

/-- Embeds `SystemUtils::isValidPercentage` from `src/core/systemutils.cpp`. -/
def isValidPercentage (value : ℚ) : Bool :=
  decide (0 ≤ value) && decide (value ≤ 100)

/-- Embeds `SystemUtils::isValidTemperature` from `src/core/systemutils.cpp`. -/
def isValidTemperature (celsius : ℚ) : Bool :=
  decide (-40 ≤ celsius) && decide (celsius ≤ 150)

/-- Embeds `SystemUtils::calculateCPUUsage` from `src/core/systemutils.cpp` lines
448-463: `totalDiff = totalTime - lastTotalTime`,
`idleDiff = idleTime - lastIdleTime`; returns `0.0` when `totalDiff <= 0`,
otherwise `(1.0 - idleDiff/totalDiff) * 100.0` clamped by
`qMax(0.0, qMin(100.0, usage))`.  (`CPUMonitor::calculateUsagePercent`
performs the same computation with `qBound(0.0, usage, 100.0)`.) -/
def calculateCPUUsage (totalTime idleTime lastTotalTime lastIdleTime : ℤ) : ℚ :=
  if totalTime - lastTotalTime ≤ 0 then 0
  else
    qMax 0 (qMin 100
      ((1 - (((idleTime - lastIdleTime) : ℤ) : ℚ) / (((totalTime - lastTotalTime) : ℤ) : ℚ)) * 100))

end SystemUtils

/-!
QString helpers.  `QString::number(int)` renders an integer in decimal;
`QString::contains(sub)` is substring containment (true for the empty
needle).  Strings are embedded through their character lists.
-/

/-- Decimal digits of a natural number, most significant first
(the character list of `QString::number` for non-negative values). -/
def natToChars (n : ℕ) : List Char :=
  if h : n < 10 then [Nat.digitChar n]
  else natToChars (n / 10) ++ [Nat.digitChar (n % 10)]
decreasing_by exact Nat.div_lt_self (by omega) (by omega)

/-- Character list of `QString::number(i)` for a (signed) integer. -/
def intToChars (i : ℤ) : List Char :=
  if i < 0 then '-' :: natToChars i.natAbs else natToChars i.natAbs

/-- Does the second list start with the first one? -/
def startsWithL : List Char → List Char → Bool
  | [], _ => true
  | _ :: _, [] => false
  | c :: cs, d :: ds => c == d && startsWithL cs ds

/-- Embeds `QString::contains`: `pat` occurs as a contiguous substring of `s`
(the empty pattern is contained in every string, as in Qt). -/
def containsL : List Char → List Char → Bool
  | [], pat => startsWithL pat []
  | c :: rest, pat => startsWithL pat (c :: rest) || containsL rest pat

/-- Embeds `QString::arg(value, 0, 'f', 1)`: fixed-point rendering with one
decimal digit, as used by the alert message format strings.  (Exact
round-half behaviour of `printf` is irrelevant to every property proved
here; no theorem inspects message text.) -/
def formatF1 (value : ℚ) : String :=
  let scaled : ℤ := round (value * 10)
  String.mk (intToChars (scaled / 10)) ++ "." ++ String.mk (natToChars (scaled % 10).natAbs)

/-- Embeds `AlertData` from `src/core/types.h`. -/
structure AlertData where
  severity : AlertSeverity
  title : String
  message : String
  source : String
  timestamp : ℤ
  acknowledged : Bool
  deriving DecidableEq

/-- The fields of `CPUData` (`src/core/types.h`) read by
`AlertManager::checkCPUThresholds`. -/
structure CPUData where
  totalUsage : ℚ
  temperature : ℚ
  deriving DecidableEq

namespace AlertManager

/-- The mutable state of an `AlertManager`
(`src/model/managers/alertmanager.h`): the alert log, the per-source
per-severity active flags, the per-source last-alert timestamps and the
log capacity.  (`m_nextAlertId` is initialized to 1 and never read or
written anywhere else in the repository, so it is omitted.) -/
structure AlertMgrState where
  alerts : List AlertData
  cpuWarningActive : Bool
  cpuCriticalActive : Bool
  memoryWarningActive : Bool
  memoryCriticalActive : Bool
  tempWarningActive : Bool
  tempCriticalActive : Bool
  lastCPUAlert : Option ℤ
  lastMemoryAlert : Option ℤ
  lastTempAlert : Option ℤ
  maxAlertsHistory : ℕ
  deriving DecidableEq

/-- The state established by the `AlertManager` constructor: empty log,
all active flags `false`, all last-alert timestamps invalid
(default-constructed `QDateTime`), capacity `MAX_ALERTS_HISTORY`. -/
def initState : AlertMgrState :=
  { alerts := []
    cpuWarningActive := false
    cpuCriticalActive := false
    memoryWarningActive := false
    memoryCriticalActive := false
    tempWarningActive := false
    tempCriticalActive := false
    lastCPUAlert := none
    lastMemoryAlert := none
    lastTempAlert := none
    maxAlertsHistory := MAX_ALERTS_HISTORY }

/-- Result of `AlertManager::addAlert`: the new state, the stored copy of
the alert (also the payload of the `alertAdded` signal) and whether the
`criticalAlert` signal was raised. -/
structure AddAlertResult where
  state : AlertMgrState
  stored : AlertData
  criticalEmitted : Bool

/-- Embeds `AlertManager::addAlert` from `src/model/managers/alertmanager.cpp`
lines 26-47: copies the argument, overwrites its timestamp with the
current time, appends it to the log, emits `alertAdded` (and
`criticalAlert` for Critical/Emergency severity), then drops the oldest
entry if the log now exceeds `m_maxAlertsHistory`. -/
def addAlert (s : AlertMgrState) (alert : AlertData) (now : ℤ) : AddAlertResult :=
  let newAlert := { alert with timestamp := now }
  let appended := s.alerts ++ [newAlert]
  let trimmed := if s.maxAlertsHistory < appended.length then appended.drop 1 else appended
  { state := { s with alerts := trimmed }
    stored := newAlert
    criticalEmitted :=
      decide (newAlert.severity = AlertSeverity.Critical) ||
      decide (newAlert.severity = AlertSeverity.Emergency) }

/-- Embeds `AlertManager::acknowledgeAlert` from
`src/model/managers/alertmanager.cpp` lines 49-61, recursing over the
log: the first alert whose `source` string contains the decimal
representation of `alertId` is marked acknowledged (and the
`alertAcknowledged`/`alertCountChanged` signals fire — the returned
Bool); all later alerts are left untouched (`break`). -/
def acknowledgeAlertGo (alertId : ℤ) : List AlertData → List AlertData × Bool
  | [] => ([], false)
  | a :: rest =>
    if containsL a.source.data (intToChars alertId) then
      ({ a with acknowledged := true } :: rest, true)
    else
      let r := acknowledgeAlertGo alertId rest
      (a :: r.1, r.2)

/-- Embeds `AlertManager::acknowledgeAlert` applied to the alert log; the Bool
records whether any signal was emitted. -/
def acknowledgeAlert (alerts : List AlertData) (alertId : ℤ) : List AlertData × Bool :=
  acknowledgeAlertGo alertId alerts

/-- Embeds `AlertManager::getActiveAlerts` from
`src/model/managers/alertmanager.cpp` lines 82-94: the unacknowledged
alerts, in log order. -/
def getActiveAlerts (alerts : List AlertData) : List AlertData :=
  alerts.filter (fun a => !a.acknowledged)

/-- Embeds `AlertManager::createCPUAlert` from `src/model/managers/alertmanager.cpp`. -/
def createCPUAlert (severity : AlertSeverity) (message : String) (value : ℚ)
    (unit : String) : AlertData :=
  { severity := severity
    title := if severity = AlertSeverity.Critical then "CPU Critical" else "CPU Warning"
    message := message ++ ": " ++ formatF1 value ++ unit
    source := "CPU"
    timestamp := 0   -- QDateTime member default-initialized; overwritten by addAlert
    acknowledged := false }

/-- Embeds `AlertManager::createMemoryAlert` from `src/model/managers/alertmanager.cpp`. -/
def createMemoryAlert (severity : AlertSeverity) (message : String) (value : ℚ)
    (unit : String) : AlertData :=
  { severity := severity
    title := if severity = AlertSeverity.Critical then "Memory Critical" else "Memory Warning"
    message := message ++ ": " ++ formatF1 value ++ unit
    source := "Memory"
    timestamp := 0
    acknowledged := false }

/-- Embeds `AlertManager::createTemperatureAlert` from `src/model/managers/alertmanager.cpp`. -/
def createTemperatureAlert (severity : AlertSeverity) (temperature : ℚ) : AlertData :=
  { severity := severity
    title := if severity = AlertSeverity.Critical then "Temperature Critical" else "Temperature Warning"
    message := "CPU temperature: " ++ formatF1 temperature ++ "°C"
    source := "Temperature"
    timestamp := 0
    acknowledged := false }

/-- Embeds `AlertManager::shouldCreateCPUAlert` from
`src/model/managers/alertmanager.cpp` lines 244-250:
`!isActive || (m_lastCPUAlert.msecsTo(now) > ALERT_COOLDOWN_MS)` where
`isActive` selects the critical or warning flag by severity. -/
def shouldCreateCPUAlert (s : AlertMgrState) (severity : AlertSeverity) (now : ℤ) : Bool :=
  let isActive := if severity = AlertSeverity.Critical then s.cpuCriticalActive else s.cpuWarningActive
  let cooldownExpired := decide (ALERT_COOLDOWN_MS < msecsTo s.lastCPUAlert now)
  !isActive || cooldownExpired

/-- Embeds `AlertManager::shouldCreateTempAlert` from
`src/model/managers/alertmanager.cpp` lines 260-266. -/
def shouldCreateTempAlert (s : AlertMgrState) (severity : AlertSeverity) (now : ℤ) : Bool :=
  let isActive := if severity = AlertSeverity.Critical then s.tempCriticalActive else s.tempWarningActive
  let cooldownExpired := decide (ALERT_COOLDOWN_MS < msecsTo s.lastTempAlert now)
  !isActive || cooldownExpired

/-- The CPU-usage block of `AlertManager::checkCPUThresholds`
(`src/model/managers/alertmanager.cpp` lines 124-146): critical branch,
else warning branch, else clear both CPU flags.  Returns the new state
and the alerts appended to the log by this block. -/
def checkCPUUsagePart (s : AlertMgrState) (totalUsage : ℚ) (now : ℤ) :
    AlertMgrState × List AlertData :=
  if CPU_CRITICAL_THRESHOLD ≤ totalUsage ∧ shouldCreateCPUAlert s AlertSeverity.Critical now = true then
    let r := addAlert s (createCPUAlert AlertSeverity.Critical "CPU usage exceed critical threshold" totalUsage "%") now
    ({ r.state with cpuCriticalActive := true, lastCPUAlert := some now }, [r.stored])
  else if CPU_WARNING_THRESHOLD ≤ totalUsage ∧ shouldCreateCPUAlert s AlertSeverity.Warning now = true then
    let r := addAlert s (createCPUAlert AlertSeverity.Warning "CPU usage high" totalUsage "%") now
    ({ r.state with cpuWarningActive := true, lastCPUAlert := some now }, [r.stored])
  else
    ({ s with cpuCriticalActive := false, cpuWarningActive := false }, [])

/-- The temperature block of `AlertManager::checkCPUThresholds`
(`src/model/managers/alertmanager.cpp` lines 148-165). -/
def checkTemperaturePart (s : AlertMgrState) (temperature : ℚ) (now : ℤ) :
    AlertMgrState × List AlertData :=
  if TEMP_CRITICAL_THRESHOLD ≤ temperature ∧ shouldCreateTempAlert s AlertSeverity.Critical now = true then
    let r := addAlert s (createTemperatureAlert AlertSeverity.Critical temperature) now
    ({ r.state with tempCriticalActive := true, lastTempAlert := some now }, [r.stored])
  else if TEMP_WARNING_THRESHOLD ≤ temperature ∧ shouldCreateTempAlert s AlertSeverity.Warning now = true then
    let r := addAlert s (createTemperatureAlert AlertSeverity.Warning temperature) now
    ({ r.state with tempWarningActive := true, lastTempAlert := some now }, [r.stored])
  else
    ({ s with tempCriticalActive := false, tempWarningActive := false }, [])

/-- Embeds `AlertManager::checkCPUThresholds` from
`src/model/managers/alertmanager.cpp` lines 124-165: the CPU-usage block
followed by the temperature block.  Returns the final state and all
alerts appended to the log during this evaluation, in order. -/
def checkCPUThresholds (s : AlertMgrState) (data : CPUData) (now : ℤ) :
    AlertMgrState × List AlertData :=
  let r1 := checkCPUUsagePart s data.totalUsage now
  let r2 := checkTemperaturePart r1.1 data.temperature now
  (r2.1, r1.2 ++ r2.2)

/-- A sequence of `checkCPUThresholds` evaluations of the same snapshot
at the given times (the per-tick signal wiring of the repository calls
`checkCPUThresholds` once per monitor tick); collects, per evaluation,
the alerts appended to the log. -/
def checkCPUSeq (s : AlertMgrState) (data : CPUData) :
    List ℤ → AlertMgrState × List (List AlertData)
  | [] => (s, [])
  | t :: ts =>
    let r := checkCPUThresholds s data t
    let rest := checkCPUSeq r.1 data ts
    (rest.1, r.2 :: rest.2)

end AlertManager

/-!
History ring buffer shared by `CPUMonitor::emitSignal` and
`MemoryMonitor::emitSignal`:
`m_history.append(d); if (m_history.size() > m_maxHistorySize) m_history.removeFirst();`.
`m_maxHistorySize` is an `int` that is always in `[10, 1000]` (the
constructors set it to `MAX_HISTORY_SIZE = 120` and `setHistorySize`
clamps with `qBound(10, size, 1000)`), so it is embedded as `Nat`.
-/

/-- One history update step of `emitSignal`
(`src/model/monitors/cpumonitor.cpp` lines 98-102). -/
def historyPush {α : Type} (maxHistorySize : ℕ) (history : List α) (snap : α) : List α :=
  let h2 := history ++ [snap]
  if maxHistorySize < h2.length then h2.drop 1 else h2

namespace CPUMonitor

/-- Embeds `CPUMonitor::setHistorySize` from `src/model/monitors/cpumonitor.cpp`
lines 37-40: `m_maxHistorySize = qBound(10, size, 1000)`.  It does not
touch `m_history`.  (`MemoryMonitor::setHistorySize` is identical.) -/
def setHistorySize (size : ℤ) : ℕ := (qBoundInt 10 size 1000).toNat

end CPUMonitor

/-- Embeds `MemoryData` from `src/core/types.h` (byte counters as `Int`,
percentages as `Rat`). -/
structure MemoryData where
  totalRAM : ℤ
  usedRAM : ℤ
  freeRAM : ℤ
  availableRAM : ℤ
  buffers : ℤ
  cached : ℤ
  swapTotal : ℤ
  swapUsed : ℤ
  usagePercentage : ℚ
  swapPercentage : ℚ
  status : MetricStatus
  timestamp : ℤ
  deriving DecidableEq

namespace AlertManager

/-- Embeds `AlertManager::shouldCreateMemoryAlert` from
`src/model/managers/alertmanager.cpp` lines 252-258:
`!isActive || (m_lastMemoryAlert.msecsTo(now) > ALERT_COOLDOWN_MS)` where
`isActive` selects the critical or warning memory flag by severity. -/
def shouldCreateMemoryAlert (s : AlertMgrState) (severity : AlertSeverity) (now : ℤ) : Bool :=
  let isActive := if severity = AlertSeverity.Critical then s.memoryCriticalActive else s.memoryWarningActive
  let cooldownExpired := decide (ALERT_COOLDOWN_MS < msecsTo s.lastMemoryAlert now)
  !isActive || cooldownExpired

/-- Embeds `AlertManager::checkMemoryThresholds` from
`src/model/managers/alertmanager.cpp` lines 167-189: critical branch,
else warning branch, else clear both memory flags.  Returns the new
state and the alerts appended to the log by this evaluation. -/
def checkMemoryThresholds (s : AlertMgrState) (data : MemoryData) (now : ℤ) :
    AlertMgrState × List AlertData :=
  if RAM_CRITICAL_THRESHOLD ≤ data.usagePercentage ∧ shouldCreateMemoryAlert s AlertSeverity.Critical now = true then
    let r := addAlert s (createMemoryAlert AlertSeverity.Critical "Memory usage critical" data.usagePercentage "%") now
    ({ r.state with memoryCriticalActive := true, lastMemoryAlert := some now }, [r.stored])
  else if RAM_WARNING_THRESHOLD ≤ data.usagePercentage ∧ shouldCreateMemoryAlert s AlertSeverity.Warning now = true then
    let r := addAlert s (createMemoryAlert AlertSeverity.Warning "Memory usage high" data.usagePercentage "%") now
    ({ r.state with memoryWarningActive := true, lastMemoryAlert := some now }, [r.stored])
  else
    ({ s with memoryWarningActive := false, memoryCriticalActive := false }, [])

end AlertManager

/-- The values returned by the `SystemUtils` readers during one memory
tick (the `RawMetricSource` collaborator).  The five `getXMemory`
readers return a byte count (0 on a failed read); the two swap fields
are `none` when the regular expression in `collectSwapInfo` does not
match, in which case the corresponding assignment is skipped. -/
structure MemReadings where
  memTotal : ℤ
  memFree : ℤ
  memAvailable : ℤ
  buffers : ℤ
  cached : ℤ
  swapTotal : Option ℤ
  swapFree : Option ℤ

namespace MemoryMonitor

/-- The `MemoryData` held by a fresh `MemoryMonitor`: field-initialized
to zeros/`Unknown` by the `MemoryData` constructor, then the monitor
constructor sets `totalRAM = SystemUtils::getTotalMemory()`.  Note that
`usedRAM` starts at 0 and no code path in the repository ever assigns
it. -/
def initData (bootTotalRAM : ℤ) : MemoryData :=
  { totalRAM := bootTotalRAM
    usedRAM := 0
    freeRAM := 0
    availableRAM := 0
    buffers := 0
    cached := 0
    swapTotal := 0
    swapUsed := 0
    usagePercentage := 0
    swapPercentage := 0
    status := MetricStatus.Unknown
    timestamp := 0 }

/-- Embeds `MemoryMonitor::collectMemoryInfo` from
`src/model/monitors/memorymonitor.cpp` lines 114-121: assigns
`totalRAM`, `freeRAM`, `availableRAM`, `buffers`, `cached` from the
readers.  `usedRAM` is not assigned. -/
def collectMemoryInfo (d : MemoryData) (r : MemReadings) : MemoryData :=
  { d with
    totalRAM := r.memTotal
    freeRAM := r.memFree
    availableRAM := r.memAvailable
    buffers := r.buffers
    cached := r.cached }

/-- Embeds `MemoryMonitor::collectSwapInfo` from
`src/model/monitors/memorymonitor.cpp` lines 123-142: each of the two
regex matches, when successful, assigns `swapTotal` respectively
`swapUsed = swapTotal - swapFree`. -/
def collectSwapInfo (d : MemoryData) (r : MemReadings) : MemoryData :=
  let d1 := match r.swapTotal with
    | some v => { d with swapTotal := v }
    | none => d
  match r.swapFree with
  | some v => { d1 with swapUsed := d1.swapTotal - v }
  | none => d1

/-- Embeds `MemoryMonitor::collectData`. -/
def collectData (d : MemoryData) (r : MemReadings) : MemoryData :=
  collectSwapInfo (collectMemoryInfo d r) r

/-- Embeds `MemoryMonitor::calculateUsagePercent` from
`src/model/monitors/memorymonitor.cpp` lines 144-150:
`usedRAM / totalRAM * 100` clamped with `qBound(0.0, usage, 100.0)`,
and `0.0` when `totalRAM <= 0`. -/
def calculateUsagePercent (d : MemoryData) : ℚ :=
  if d.totalRAM ≤ 0 then 0
  else qBound 0 ((d.usedRAM : ℚ) / (d.totalRAM : ℚ) * 100) 100

/-- Embeds `MemoryMonitor::calculateSwapPercent` from
`src/model/monitors/memorymonitor.cpp` lines 152-158. -/
def calculateSwapPercent (d : MemoryData) : ℚ :=
  if d.swapTotal ≤ 0 then 0
  else qBound 0 ((d.swapUsed : ℚ) / (d.swapTotal : ℚ) * 100) 100

/-- Embeds `MemoryMonitor::determineStatus` from
`src/model/monitors/memorymonitor.cpp` lines 160-176: Critical at or
above `RAM_CRITICAL_THRESHOLD`, Warning at or above
`RAM_WARNING_THRESHOLD` or below the low-memory floor, else Normal. -/
def determineStatus (d : MemoryData) : MetricStatus :=
  if RAM_CRITICAL_THRESHOLD ≤ d.usagePercentage then MetricStatus.Critical
  else if RAM_WARNING_THRESHOLD ≤ d.usagePercentage then MetricStatus.Warning
  else if d.availableRAM < LOW_MEMORY_THRESHOLD then MetricStatus.Warning
  else MetricStatus.Normal

/-- Embeds `MemoryMonitor::processData` from
`src/model/monitors/memorymonitor.cpp` lines 62-68: the four sequential
assignments (status is determined after the percentages are written). -/
def processData (d : MemoryData) (now : ℤ) : MemoryData :=
  let d1 := { d with usagePercentage := calculateUsagePercent d }
  let d2 := { d1 with swapPercentage := calculateSwapPercent d1 }
  let d3 := { d2 with status := determineStatus d2 }
  { d3 with timestamp := now }

/-- Embeds `MemoryMonitor::validateData` from
`src/model/monitors/memorymonitor.cpp` lines 70-84: invalid percentages
reset to `0.0`, negative byte counters reset to 0. -/
def validateData (d : MemoryData) : MemoryData :=
  let d1 := if SystemUtils.isValidPercentage d.usagePercentage then d
            else { d with usagePercentage := 0 }
  let d2 := if SystemUtils.isValidPercentage d1.swapPercentage then d1
            else { d1 with swapPercentage := 0 }
  let d3 := if d2.totalRAM < 0 then { d2 with totalRAM := 0 } else d2
  let d4 := if d3.usedRAM < 0 then { d3 with usedRAM := 0 } else d3
  if d4.availableRAM < 0 then { d4 with availableRAM := 0 } else d4

/-- The collect → derive → validate part of one `MemoryMonitor` tick
(the phases run by `BaseMonitor::onTimerTick` before `emitSignal`). -/
def tick (d : MemoryData) (r : MemReadings) (now : ℤ) : MemoryData :=
  validateData (processData (collectData d r) now)

end MemoryMonitor

namespace BaseMonitor

/-- The per-monitor state touched by `BaseMonitor::onTimerTick`
(`src/model/base/basemonitor.cpp` lines 72-90): the current snapshot
(`m_currentData` of the concrete monitor), the history buffer, and
`m_lastUpdateTime` (`none` = invalid `QDateTime`). -/
structure MonitorState (α : Type) where
  currentData : α
  history : List α
  lastUpdateTime : Option ℤ
  deriving DecidableEq

/-- What one timer tick produced: the state afterwards and which signals
fired (`errorOccurred`; the snapshot-updated signal of `emitSignal`,
recorded as `published`; `dataUpdated`). -/
structure TickOutcome (α : Type) where
  state : MonitorState α
  errorEmitted : Bool
  published : Bool
  dataUpdatedEmitted : Bool
  deriving DecidableEq

/-- Embeds `BaseMonitor::onTimerTick` from `src/model/base/basemonitor.cpp`
lines 72-90.  The virtual phases `collectData`, `processData`,
`validateData` are parameters; each returns the snapshot as mutated so
far together with an optional fault (a thrown exception).  C++ exception
semantics: mutations performed before the throw persist, the `catch`
block emits `errorOccurred` and performs no rollback, and the remaining
phases — including `emitSignal` (the publish: snapshot signal plus
history append, common to both concrete monitors), `updateTimestamp` and
the `dataUpdated` signal — are skipped. -/
def onTimerTick {α : Type} (isPaused : Bool)
    (collectData processData validateData : α → α × Option String)
    (maxHistorySize : ℕ) (st : MonitorState α) (now : ℤ) : TickOutcome α :=
  if isPaused then
    { state := st, errorEmitted := false, published := false, dataUpdatedEmitted := false }
  else
    let c := collectData st.currentData
    if c.2.isSome then
      { state := { st with currentData := c.1 }
        errorEmitted := true, published := false, dataUpdatedEmitted := false }
    else
      let p := processData c.1
      if p.2.isSome then
        { state := { st with currentData := p.1 }
          errorEmitted := true, published := false, dataUpdatedEmitted := false }
      else
        let v := validateData p.1
        if v.2.isSome then
          { state := { st with currentData := v.1 }
            errorEmitted := true, published := false, dataUpdatedEmitted := false }
        else
          { state :=
              { currentData := v.1
                history := historyPush maxHistorySize st.history v.1
                lastUpdateTime := some now }
            errorEmitted := false, published := true, dataUpdatedEmitted := true }

end BaseMonitor

/-!
Theorems.
-/

theorem qMin_eq_of_le {a b : ℚ} (h : b ≤ a) : qMin a b = b := by
  rw [qMin]
  split
  · rfl
  · exact le_antisymm (by linarith) h

theorem qMax_eq_of_le {a b : ℚ} (h : a ≤ b) : qMax a b = b := by
  rw [qMax]
  split
  · rfl
  · exact (le_antisymm (by linarith) h).symm

theorem le_qMax_left (a b : ℚ) : a ≤ qMax a b := by
  rw [qMax]; split <;> linarith

theorem qMax_le {a b c : ℚ} (h1 : a ≤ c) (h2 : b ≤ c) : qMax a b ≤ c := by
  rw [qMax]; split <;> assumption

theorem qMin_le_left (a b : ℚ) : qMin a b ≤ a := by
  rw [qMin]; split <;> linarith

/-- C4: the rate computation satisfies
`usage = 100 × (1 − idleDelta/totalDelta)` (whenever the deltas describe
a well-formed interval, so that the safety clamp is inactive), and on the
spec scenario `(total=1000, idle=800) → (total=1200, idle=850)` it
returns exactly 75. -/
theorem c4_rate_formula (totalTime idleTime lastTotalTime lastIdleTime : ℤ)
    (hpos : 0 < totalTime - lastTotalTime)
    (hidle0 : 0 ≤ idleTime - lastIdleTime)
    (hidle1 : idleTime - lastIdleTime ≤ totalTime - lastTotalTime) :
    SystemUtils.calculateCPUUsage totalTime idleTime lastTotalTime lastIdleTime
      = 100 * (1 - (((idleTime - lastIdleTime) : ℤ) : ℚ) / (((totalTime - lastTotalTime) : ℤ) : ℚ))
    ∧ SystemUtils.calculateCPUUsage 1200 850 1000 800 = 75 := by
  constructor
  · rw [SystemUtils.calculateCPUUsage, if_neg (by omega)]
    have htQ : (0 : ℚ) < (((totalTime - lastTotalTime) : ℤ) : ℚ) := by exact_mod_cast hpos
    have hiQ : (0 : ℚ) ≤ (((idleTime - lastIdleTime) : ℤ) : ℚ) := by exact_mod_cast hidle0
    have hle : (((idleTime - lastIdleTime) : ℤ) : ℚ) ≤ (((totalTime - lastTotalTime) : ℤ) : ℚ) := by
      exact_mod_cast hidle1
    have hr0 : 0 ≤ (((idleTime - lastIdleTime) : ℤ) : ℚ) / (((totalTime - lastTotalTime) : ℤ) : ℚ) :=
      div_nonneg hiQ htQ.le
    have hr1 : (((idleTime - lastIdleTime) : ℤ) : ℚ) / (((totalTime - lastTotalTime) : ℤ) : ℚ) ≤ 1 :=
      (div_le_one htQ).mpr hle
    rw [qMin_eq_of_le (by nlinarith), qMax_eq_of_le (by nlinarith)]
    ring
  · norm_num [SystemUtils.calculateCPUUsage, qMin, qMax]

/-- C4 witness: the theorem applied at the spec scenario counters. -/
theorem c4_rate_formula_witness :
    SystemUtils.calculateCPUUsage 1200 850 1000 800
      = 100 * (1 - (((850 - 800 : ℤ) : ℤ) : ℚ) / (((1200 - 1000 : ℤ) : ℤ) : ℚ)) :=
  (c4_rate_formula 1200 850 1000 800 (by decide) (by decide) (by decide)).1

/-- C5: the rate computation returns exactly 0 whenever
`totalDelta ≤ 0`, for arbitrary idle values, and for `totalDelta > 0` the
result lies in `[0, 100]` for arbitrary (also anomalous) idle deltas. -/
theorem c5_rate_safety (totalTime idleTime lastTotalTime lastIdleTime : ℤ) :
    (totalTime - lastTotalTime ≤ 0 →
      SystemUtils.calculateCPUUsage totalTime idleTime lastTotalTime lastIdleTime = 0)
    ∧ (0 < totalTime - lastTotalTime →
      0 ≤ SystemUtils.calculateCPUUsage totalTime idleTime lastTotalTime lastIdleTime
      ∧ SystemUtils.calculateCPUUsage totalTime idleTime lastTotalTime lastIdleTime ≤ 100) := by
  constructor
  · intro h
    rw [SystemUtils.calculateCPUUsage, if_pos h]
  · intro h
    rw [SystemUtils.calculateCPUUsage, if_neg (by omega)]
    refine ⟨le_qMax_left 0 _, ?_⟩
    exact qMax_le (by norm_num) (qMin_le_left 100 _)

/-- C5 witness: the theorem applied to a regressed counter pair (result
0) and to an anomalous pair with negative idle delta (result clamped into
`[0, 100]`). -/
theorem c5_rate_safety_witness :
    SystemUtils.calculateCPUUsage 1000 800 1200 850 = 0
    ∧ (0 ≤ SystemUtils.calculateCPUUsage 1200 700 1000 800
       ∧ SystemUtils.calculateCPUUsage 1200 700 1000 800 ≤ 100) :=
  ⟨(c5_rate_safety 1000 800 1200 850).1 (by decide),
   (c5_rate_safety 1200 700 1000 800).2 (by decide)⟩

/-- C1: claimed: a memory tick collecting `total = 1,000,000,000` and
`available = 250,000,000` bytes derives `usagePercentage = 75` and status
Normal.  The code disagrees on the percentage: `calculateUsagePercent`
divides `usedRAM` by `totalRAM`, and `usedRAM` is never assigned by any
code path of the repository (it keeps its constructor value 0), so the
derived `usagePercentage` is 0, not 75; the status is Normal.  This
theorem evaluates the embedded tick at the claimed input. -/
theorem c1_memory_usage_dead_field :
    (MemoryMonitor.tick (MemoryMonitor.initData 1000000000)
        { memTotal := 1000000000, memFree := 100000000, memAvailable := 250000000,
          buffers := 0, cached := 0, swapTotal := some 0, swapFree := some 0 } 0).usagePercentage = 0
    ∧ (MemoryMonitor.tick (MemoryMonitor.initData 1000000000)
        { memTotal := 1000000000, memFree := 100000000, memAvailable := 250000000,
          buffers := 0, cached := 0, swapTotal := some 0, swapFree := some 0 } 0).status
        = MetricStatus.Normal
    ∧ (MemoryMonitor.tick (MemoryMonitor.initData 1000000000)
        { memTotal := 1000000000, memFree := 100000000, memAvailable := 250000000,
          buffers := 0, cached := 0, swapTotal := some 0, swapFree := some 0 } 0).usagePercentage
        ≠ 75 := by
  refine ⟨?_, ?_, ?_⟩ <;>
    norm_num [MemoryMonitor.tick, MemoryMonitor.validateData, MemoryMonitor.processData,
      MemoryMonitor.collectData, MemoryMonitor.collectMemoryInfo, MemoryMonitor.collectSwapInfo,
      MemoryMonitor.calculateUsagePercent, MemoryMonitor.calculateSwapPercent,
      MemoryMonitor.determineStatus, MemoryMonitor.initData, SystemUtils.isValidPercentage,
      qBound, qMin, qMax, RAM_CRITICAL_THRESHOLD, RAM_WARNING_THRESHOLD, LOW_MEMORY_THRESHOLD]

theorem foldl_historyPush {α : Type} (c : ℕ) (xs : List α) : ∀ h : List α, h.length ≤ c →
    List.foldl (historyPush c) h xs = (h ++ xs).drop (h.length + xs.length - c) := by
  induction xs with
  | nil =>
    intro h hle
    simp [Nat.sub_eq_zero_of_le hle]
  | cons x xs ih =>
    intro h hle
    rw [List.foldl_cons]
    by_cases hlt : h.length + 1 ≤ c
    · have hpush : historyPush c h x = h ++ [x] := by
        rw [historyPush]
        simp only [List.length_append, List.length_singleton]
        rw [if_neg (by omega)]
      rw [hpush, ih (h ++ [x]) (by simpa using hlt)]
      have harr : (h ++ [x]) ++ xs = h ++ x :: xs := by simp
      rw [harr]
      have hidx : (h ++ [x]).length + xs.length - c = h.length + (x :: xs).length - c := by
        simp; omega
      rw [hidx]
    · have hceq : h.length = c := by omega
      have hpush : historyPush c h x = (h ++ [x]).drop 1 := by
        rw [historyPush]
        simp only [List.length_append, List.length_singleton]
        rw [if_pos (by omega)]
      have hlen' : ((h ++ [x]).drop 1).length = c := by
        simp [hceq]
      rw [hpush, ih ((h ++ [x]).drop 1) (le_of_eq hlen')]
      have harr : (h ++ [x]).drop 1 ++ xs = (h ++ x :: xs).drop 1 := by
        cases h with
        | nil => simp
        | cons a t => simp
      rw [harr, hlen', List.drop_drop]
      congr 1
      simp only [List.length_cons]
      omega

/-- C6 counterexample: the claim fails for a capacity lowered below the
current buffer size.  Push 11 snapshots at the default capacity 120, call
`setHistorySize(10)` (which clamps to 10 but does not truncate), then
publish once more: the buffer then holds 11 snapshots — more than the
configured capacity 10, and not the 10 most recent. -/
theorem c6_history_counterexample :
    CPUMonitor.setHistorySize 10 = 10
    ∧ (historyPush (CPUMonitor.setHistorySize 10)
        (List.foldl (historyPush MAX_HISTORY_SIZE) ([] : List ℕ) (List.range 11)) 11).length = 11
    ∧ CPUMonitor.setHistorySize 10
      < (historyPush (CPUMonitor.setHistorySize 10)
          (List.foldl (historyPush MAX_HISTORY_SIZE) ([] : List ℕ) (List.range 11)) 11).length
    ∧ historyPush (CPUMonitor.setHistorySize 10)
        (List.foldl (historyPush MAX_HISTORY_SIZE) ([] : List ℕ) (List.range 11)) 11
      ≠ (List.range 12).drop 2 := by
  refine ⟨?_, ?_, ?_, ?_⟩ <;> decide

/-- C6 (amended): with a fixed capacity `c` (any value the clamp of
`setHistorySize` can produce), a run of `N > c` publish steps from an
empty buffer leaves exactly the `c` most recent snapshots in arrival
order; but once the buffer is longer than the capacity (as after lowering
the capacity below the buffer size, which does not truncate), each
further publish appends the new snapshot and evicts exactly one oldest
entry, keeping the oversized length constant instead of restoring the
capacity bound. -/
theorem c6_history_capacity (c : ℕ) (xs : List ℕ)
    (hc : 10 ≤ c) (hc' : c ≤ 1000) (hlen : c < xs.length) :
    List.foldl (historyPush c) ([] : List ℕ) xs = xs.drop (xs.length - c)
    ∧ (List.foldl (historyPush c) ([] : List ℕ) xs).length = c
    ∧ ∀ (h : List ℕ) (x : ℕ), c < h.length →
        historyPush c h x = h.drop 1 ++ [x] ∧ (historyPush c h x).length = h.length := by
  have hfold := foldl_historyPush c xs [] (by simp)
  simp only [List.nil_append, List.length_nil, Nat.zero_add] at hfold
  refine ⟨hfold, ?_, ?_⟩
  · rw [hfold, List.length_drop]
    omega
  · intro h x hover
    have hpush : historyPush c h x = (h ++ [x]).drop 1 := by
      rw [historyPush]
      simp only [List.length_append, List.length_singleton]
      rw [if_pos (by omega)]
    constructor
    · rw [hpush]
      cases h with
      | nil => simp at hover
      | cons a t => simp
    · rw [hpush]
      simp

/-- C6 witness: the amended theorem at capacity 10 with 12 publishes,
and its eviction clause at an 11-element buffer. -/
theorem c6_history_capacity_witness :
    List.foldl (historyPush 10) ([] : List ℕ) (List.range 12) = (List.range 12).drop 2
    ∧ historyPush 10 (List.range 11) 99 = (List.range 11).drop 1 ++ [99] := by
  have h := c6_history_capacity 10 (List.range 12) (by norm_num) (by norm_num)
    (by simp)
  refine ⟨?_, (h.2.2 (List.range 11) 99 (by simp)).1⟩
  have h1 := h.1
  norm_num at h1
  exact h1

/-- C7 counterexample: the claim that the current snapshot remains the
previous valid snapshot after a faulting tick is false.  With snapshot 0,
a collect phase that mutates the snapshot to 1 and succeeds, and a derive
phase that then faults, the tick emits the error and skips publish, but
`m_currentData` is left at 1 — the partially mutated value, not the
previous snapshot 0 (`onTimerTick` catches the exception without any
rollback). -/
theorem c7_fault_counterexample :
    (BaseMonitor.onTimerTick false (fun d => (d + 1, none)) (fun d => (d, some "derive fault"))
        (fun d => (d, none)) 120 ⟨(0 : ℤ), [], none⟩ 50).errorEmitted = true
    ∧ (BaseMonitor.onTimerTick false (fun d => (d + 1, none)) (fun d => (d, some "derive fault"))
        (fun d => (d, none)) 120 ⟨(0 : ℤ), [], none⟩ 50).published = false
    ∧ (BaseMonitor.onTimerTick false (fun d => (d + 1, none)) (fun d => (d, some "derive fault"))
        (fun d => (d, none)) 120 ⟨(0 : ℤ), [], none⟩ 50).state.currentData = 1
    ∧ ¬ (BaseMonitor.onTimerTick false (fun d => (d + 1, none)) (fun d => (d, some "derive fault"))
        (fun d => (d, none)) 120 ⟨(0 : ℤ), [], none⟩ 50).state.currentData = 0 := by
  refine ⟨?_, ?_, ?_, ?_⟩ <;> decide

/-- C7 (amended): whenever one of the collect/derive/validate phases of a
tick faults, the tick emits the `errorOccurred` notification and every
later phase is skipped — in particular publish: no snapshot notification,
no history append, and no `lastUpdateTime` update, so the published state
is unchanged.  The in-place snapshot `m_currentData` itself, however, is
not rolled back: it keeps the mutations of the phases that ran before the
fault (see the counterexample). -/
theorem c7_fault_skips_publish {α : Type}
    (collectData processData validateData : α → α × Option String)
    (maxHistorySize : ℕ) (st : BaseMonitor.MonitorState α) (now : ℤ)
    (hfault :
      (collectData st.currentData).2.isSome = true
      ∨ ((collectData st.currentData).2 = none
         ∧ (processData (collectData st.currentData).1).2.isSome = true)
      ∨ ((collectData st.currentData).2 = none
         ∧ (processData (collectData st.currentData).1).2 = none
         ∧ (validateData (processData (collectData st.currentData).1).1).2.isSome = true)) :
    (BaseMonitor.onTimerTick false collectData processData validateData maxHistorySize st now).errorEmitted = true
    ∧ (BaseMonitor.onTimerTick false collectData processData validateData maxHistorySize st now).published = false
    ∧ (BaseMonitor.onTimerTick false collectData processData validateData maxHistorySize st now).dataUpdatedEmitted = false
    ∧ (BaseMonitor.onTimerTick false collectData processData validateData maxHistorySize st now).state.history = st.history
    ∧ (BaseMonitor.onTimerTick false collectData processData validateData maxHistorySize st now).state.lastUpdateTime = st.lastUpdateTime := by
  rcases hfault with h1 | ⟨h1, h2⟩ | ⟨h1, h2, h3⟩
  · simp [BaseMonitor.onTimerTick, h1]
  · simp [BaseMonitor.onTimerTick, h1, h2]
  · simp [BaseMonitor.onTimerTick, h1, h2, h3]

/-- C7 witness: the amended theorem at a concrete faulting derive phase. -/
theorem c7_fault_skips_publish_witness :
    (BaseMonitor.onTimerTick false (fun d => (d + 1, none)) (fun d => (d, some "derive fault"))
        (fun d => (d, none)) 120 ⟨(7 : ℤ), [3], some 4⟩ 50).errorEmitted = true
    ∧ (BaseMonitor.onTimerTick false (fun d => (d + 1, none)) (fun d => (d, some "derive fault"))
        (fun d => (d, none)) 120 ⟨(7 : ℤ), [3], some 4⟩ 50).published = false
    ∧ (BaseMonitor.onTimerTick false (fun d => (d + 1, none)) (fun d => (d, some "derive fault"))
        (fun d => (d, none)) 120 ⟨(7 : ℤ), [3], some 4⟩ 50).dataUpdatedEmitted = false
    ∧ (BaseMonitor.onTimerTick false (fun d => (d + 1, none)) (fun d => (d, some "derive fault"))
        (fun d => (d, none)) 120 ⟨(7 : ℤ), [3], some 4⟩ 50).state.history = [3]
    ∧ (BaseMonitor.onTimerTick false (fun d => (d + 1, none)) (fun d => (d, some "derive fault"))
        (fun d => (d, none)) 120 ⟨(7 : ℤ), [3], some 4⟩ 50).state.lastUpdateTime = some 4 := by
  have h := c7_fault_skips_publish (fun d : ℤ => (d + 1, none))
    (fun d => (d, some "derive fault")) (fun d => (d, none)) 120 ⟨(7 : ℤ), [3], some 4⟩ 50
    (Or.inr (Or.inl ⟨rfl, rfl⟩))
  exact h

/-- C2: the claim that a continuously critical metric yields exactly one
alert at the crossing and none until the 30 s cooldown elapses is
violated by the code.  With CPU usage held at 95 % (critical threshold
90) and temperature 0, evaluations at t = 0 ms, 1000 ms, 2000 ms and
3000 ms append THREE alerts within 3 s: the `else if` chain fires a
Warning alert at the second evaluation (the warning active-flag is still
clear while the critical alert is in cooldown), the third evaluation
takes the final `else` branch — clearing both active flags although the
condition still holds — and the fourth evaluation therefore fires a
fresh Critical alert with no regard to the cooldown.  This contradicts
the code's own stated intent (`ALERT_COOLDOWN_MS`: "Minimum time between
similar alerts"; "State tracking (prevent duplicate alerts)"). -/
theorem c2_cooldown_bug_trace :
    (AlertManager.checkCPUSeq AlertManager.initState ⟨95, 0⟩ [0, 1000, 2000, 3000]).2.map
        (List.map AlertData.severity)
      = [[AlertSeverity.Critical], [AlertSeverity.Warning], [], [AlertSeverity.Critical]] := by
  decide

theorem checkCPUUsagePart_below (s : AlertManager.AlertMgrState) (u : ℚ) (now : ℤ)
    (hu : u < CPU_WARNING_THRESHOLD) :
    AlertManager.checkCPUUsagePart s u now
      = ({ s with cpuCriticalActive := false, cpuWarningActive := false }, []) := by
  rw [AlertManager.checkCPUUsagePart, if_neg, if_neg]
  · rintro ⟨h, -⟩
    rw [CPU_WARNING_THRESHOLD] at hu
    rw [CPU_WARNING_THRESHOLD] at h
    linarith
  · rintro ⟨h, -⟩
    rw [CPU_WARNING_THRESHOLD] at hu
    rw [CPU_CRITICAL_THRESHOLD] at h
    linarith

theorem checkTemperaturePart_below (s : AlertManager.AlertMgrState) (temp : ℚ) (now : ℤ)
    (ht : temp < TEMP_WARNING_THRESHOLD) :
    AlertManager.checkTemperaturePart s temp now
      = ({ s with tempCriticalActive := false, tempWarningActive := false }, []) := by
  rw [AlertManager.checkTemperaturePart, if_neg, if_neg]
  · rintro ⟨h, -⟩
    rw [TEMP_WARNING_THRESHOLD] at ht
    rw [TEMP_WARNING_THRESHOLD] at h
    linarith
  · rintro ⟨h, -⟩
    rw [TEMP_WARNING_THRESHOLD] at ht
    rw [TEMP_CRITICAL_THRESHOLD] at h
    linarith

theorem checkCPUUsagePart_warning_fires (s : AlertManager.AlertMgrState) (u : ℚ) (now : ℤ)
    (hW : CPU_WARNING_THRESHOLD ≤ u) (hC : u < CPU_CRITICAL_THRESHOLD)
    (hact : s.cpuWarningActive = false) :
    AlertManager.checkCPUUsagePart s u now
      = ({ (AlertManager.addAlert s
              (AlertManager.createCPUAlert AlertSeverity.Warning "CPU usage high" u "%") now).state
            with cpuWarningActive := true, lastCPUAlert := some now },
         [(AlertManager.addAlert s
              (AlertManager.createCPUAlert AlertSeverity.Warning "CPU usage high" u "%") now).stored]) := by
  rw [AlertManager.checkCPUUsagePart, if_neg, if_pos]
  · refine ⟨hW, ?_⟩
    simp [AlertManager.shouldCreateCPUAlert, hact]
  · rintro ⟨h, -⟩
    rw [CPU_CRITICAL_THRESHOLD] at h
    rw [CPU_CRITICAL_THRESHOLD] at hC
    linarith

theorem checkMemoryThresholds_below (s : AlertManager.AlertMgrState) (data : MemoryData)
    (now : ℤ) (hu : data.usagePercentage < RAM_WARNING_THRESHOLD) :
    AlertManager.checkMemoryThresholds s data now
      = ({ s with memoryWarningActive := false, memoryCriticalActive := false }, []) := by
  rw [AlertManager.checkMemoryThresholds, if_neg, if_neg]
  · rintro ⟨h, -⟩
    rw [RAM_WARNING_THRESHOLD] at hu
    rw [RAM_WARNING_THRESHOLD] at h
    linarith
  · rintro ⟨h, -⟩
    rw [RAM_WARNING_THRESHOLD] at hu
    rw [RAM_CRITICAL_THRESHOLD] at h
    linarith

theorem checkMemoryThresholds_warning_fires (s : AlertManager.AlertMgrState) (data : MemoryData)
    (now : ℤ) (hW : RAM_WARNING_THRESHOLD ≤ data.usagePercentage)
    (hC : data.usagePercentage < RAM_CRITICAL_THRESHOLD)
    (hact : s.memoryWarningActive = false) :
    AlertManager.checkMemoryThresholds s data now
      = ({ (AlertManager.addAlert s
              (AlertManager.createMemoryAlert AlertSeverity.Warning "Memory usage high" data.usagePercentage "%") now).state
            with memoryWarningActive := true, lastMemoryAlert := some now },
         [(AlertManager.addAlert s
              (AlertManager.createMemoryAlert AlertSeverity.Warning "Memory usage high" data.usagePercentage "%") now).stored]) := by
  rw [AlertManager.checkMemoryThresholds, if_neg, if_pos]
  · refine ⟨hW, ?_⟩
    simp [AlertManager.shouldCreateMemoryAlert, hact]
  · rintro ⟨h, -⟩
    rw [RAM_CRITICAL_THRESHOLD] at h
    rw [RAM_CRITICAL_THRESHOLD] at hC
    linarith

theorem checkTemperaturePart_warning_fires (s : AlertManager.AlertMgrState) (temp : ℚ)
    (now : ℤ) (hW : TEMP_WARNING_THRESHOLD ≤ temp) (hC : temp < TEMP_CRITICAL_THRESHOLD)
    (hact : s.tempWarningActive = false) :
    AlertManager.checkTemperaturePart s temp now
      = ({ (AlertManager.addAlert s
              (AlertManager.createTemperatureAlert AlertSeverity.Warning temp) now).state
            with tempWarningActive := true, lastTempAlert := some now },
         [(AlertManager.addAlert s
              (AlertManager.createTemperatureAlert AlertSeverity.Warning temp) now).stored]) := by
  rw [AlertManager.checkTemperaturePart, if_neg, if_pos]
  · refine ⟨hW, ?_⟩
    simp [AlertManager.shouldCreateTempAlert, hact]
  · rintro ⟨h, -⟩
    rw [TEMP_CRITICAL_THRESHOLD] at h
    rw [TEMP_CRITICAL_THRESHOLD] at hC
    linarith

/-- C3: the per-(source, severity) alert state is independent across
severities, for every source.  For each of the three sources (CPU usage,
Memory usage, Temperature): an evaluation that finds the source's metric
below its warning threshold clears both the warning and critical active
flags of that source and appends nothing; a later evaluation (with
arbitrary state and timing, so in particular with the cooldown since the
last critical alert of that source not elapsed) that re-crosses the
warning threshold appends exactly one new Warning alert carrying that
source.  (The CPU-usage and Temperature sources are the two blocks of
`checkCPUThresholds`; the co-resident block is held below its own
warning threshold so that it stays silent.) -/
theorem c3_severity_state_independent
    (s sM sT : AlertManager.AlertMgrState)
    (u uRe T1 T2 uT1 uT2 T3 T4 : ℚ) (t1 t2 tM1 tM2 tT1 tT2 : ℤ)
    (dM dM2 : MemoryData)
    (hu : u < CPU_WARNING_THRESHOLD)
    (hT1 : T1 < TEMP_WARNING_THRESHOLD) (hT2 : T2 < TEMP_WARNING_THRESHOLD)
    (hRe1 : CPU_WARNING_THRESHOLD ≤ uRe) (hRe2 : uRe < CPU_CRITICAL_THRESHOLD)
    (hM : dM.usagePercentage < RAM_WARNING_THRESHOLD)
    (hM2a : RAM_WARNING_THRESHOLD ≤ dM2.usagePercentage)
    (hM2b : dM2.usagePercentage < RAM_CRITICAL_THRESHOLD)
    (huT1 : uT1 < CPU_WARNING_THRESHOLD) (huT2 : uT2 < CPU_WARNING_THRESHOLD)
    (hT3 : T3 < TEMP_WARNING_THRESHOLD)
    (hT4a : TEMP_WARNING_THRESHOLD ≤ T4) (hT4b : T4 < TEMP_CRITICAL_THRESHOLD) :
    ((AlertManager.checkCPUThresholds s ⟨u, T1⟩ t1).1.cpuWarningActive = false
     ∧ (AlertManager.checkCPUThresholds s ⟨u, T1⟩ t1).1.cpuCriticalActive = false
     ∧ (AlertManager.checkCPUThresholds s ⟨u, T1⟩ t1).2 = []
     ∧ (AlertManager.checkCPUThresholds
         (AlertManager.checkCPUThresholds s ⟨u, T1⟩ t1).1 ⟨uRe, T2⟩ t2).2.map AlertData.severity
       = [AlertSeverity.Warning]
     ∧ (AlertManager.checkCPUThresholds
         (AlertManager.checkCPUThresholds s ⟨u, T1⟩ t1).1 ⟨uRe, T2⟩ t2).2.map AlertData.source
       = ["CPU"])
    ∧ ((AlertManager.checkMemoryThresholds sM dM tM1).1.memoryWarningActive = false
     ∧ (AlertManager.checkMemoryThresholds sM dM tM1).1.memoryCriticalActive = false
     ∧ (AlertManager.checkMemoryThresholds sM dM tM1).2 = []
     ∧ (AlertManager.checkMemoryThresholds
         (AlertManager.checkMemoryThresholds sM dM tM1).1 dM2 tM2).2.map AlertData.severity
       = [AlertSeverity.Warning]
     ∧ (AlertManager.checkMemoryThresholds
         (AlertManager.checkMemoryThresholds sM dM tM1).1 dM2 tM2).2.map AlertData.source
       = ["Memory"])
    ∧ ((AlertManager.checkCPUThresholds sT ⟨uT1, T3⟩ tT1).1.tempWarningActive = false
     ∧ (AlertManager.checkCPUThresholds sT ⟨uT1, T3⟩ tT1).1.tempCriticalActive = false
     ∧ (AlertManager.checkCPUThresholds sT ⟨uT1, T3⟩ tT1).2 = []
     ∧ (AlertManager.checkCPUThresholds
         (AlertManager.checkCPUThresholds sT ⟨uT1, T3⟩ tT1).1 ⟨uT2, T4⟩ tT2).2.map AlertData.severity
       = [AlertSeverity.Warning]
     ∧ (AlertManager.checkCPUThresholds
         (AlertManager.checkCPUThresholds sT ⟨uT1, T3⟩ tT1).1 ⟨uT2, T4⟩ tT2).2.map AlertData.source
       = ["Temperature"]) := by
  refine ⟨?_, ?_, ?_⟩
  · obtain ⟨s1, hpair, hwarn, hcrit⟩ :
        ∃ s1 : AlertManager.AlertMgrState,
          AlertManager.checkCPUThresholds s ⟨u, T1⟩ t1 = (s1, [])
          ∧ s1.cpuWarningActive = false ∧ s1.cpuCriticalActive = false := by
      refine ⟨{ s with
              cpuCriticalActive := false
              cpuWarningActive := false
              tempCriticalActive := false
              tempWarningActive := false }, ?_, rfl, rfl⟩
      rw [AlertManager.checkCPUThresholds]
      simp only [checkCPUUsagePart_below s u t1 hu]
      simp only [checkTemperaturePart_below _ T1 t1 hT1]
      rfl
    have hfst : (AlertManager.checkCPUThresholds s ⟨u, T1⟩ t1).1 = s1 := by rw [hpair]
    have hsnd : (AlertManager.checkCPUThresholds s ⟨u, T1⟩ t1).2 = ([] : List AlertData) := by
      rw [hpair]
    rw [hfst, hsnd]
    refine ⟨hwarn, hcrit, rfl, ?_, ?_⟩ <;>
    · simp only [AlertManager.checkCPUThresholds]
      rw [checkCPUUsagePart_warning_fires s1 uRe t2 hRe1 hRe2 hwarn]
      rw [checkTemperaturePart_below _ T2 t2 hT2]
      simp [AlertManager.addAlert, AlertManager.createCPUAlert]
  · obtain ⟨s1, hpair, hwarn, hcrit⟩ :
        ∃ s1 : AlertManager.AlertMgrState,
          AlertManager.checkMemoryThresholds sM dM tM1 = (s1, [])
          ∧ s1.memoryWarningActive = false ∧ s1.memoryCriticalActive = false :=
      ⟨{ sM with memoryWarningActive := false, memoryCriticalActive := false },
        checkMemoryThresholds_below sM dM tM1 hM, rfl, rfl⟩
    have hfst : (AlertManager.checkMemoryThresholds sM dM tM1).1 = s1 := by rw [hpair]
    have hsnd : (AlertManager.checkMemoryThresholds sM dM tM1).2 = ([] : List AlertData) := by
      rw [hpair]
    rw [hfst, hsnd]
    refine ⟨hwarn, hcrit, rfl, ?_, ?_⟩ <;>
    · rw [checkMemoryThresholds_warning_fires s1 dM2 tM2 hM2a hM2b hwarn]
      simp [AlertManager.addAlert, AlertManager.createMemoryAlert]
  · obtain ⟨s1, hpair, hwarn, hcrit⟩ :
        ∃ s1 : AlertManager.AlertMgrState,
          AlertManager.checkCPUThresholds sT ⟨uT1, T3⟩ tT1 = (s1, [])
          ∧ s1.tempWarningActive = false ∧ s1.tempCriticalActive = false := by
      refine ⟨{ sT with
              cpuCriticalActive := false
              cpuWarningActive := false
              tempCriticalActive := false
              tempWarningActive := false }, ?_, rfl, rfl⟩
      rw [AlertManager.checkCPUThresholds]
      simp only [checkCPUUsagePart_below sT uT1 tT1 huT1]
      simp only [checkTemperaturePart_below _ T3 tT1 hT3]
      rfl
    have hfst : (AlertManager.checkCPUThresholds sT ⟨uT1, T3⟩ tT1).1 = s1 := by rw [hpair]
    have hsnd : (AlertManager.checkCPUThresholds sT ⟨uT1, T3⟩ tT1).2 = ([] : List AlertData) := by
      rw [hpair]
    rw [hfst, hsnd]
    have hu1 : (AlertManager.checkCPUUsagePart s1 uT2 tT2).1
        = { s1 with cpuCriticalActive := false, cpuWarningActive := false } := by
      rw [checkCPUUsagePart_below s1 uT2 tT2 huT2]
    have hu2 : (AlertManager.checkCPUUsagePart s1 uT2 tT2).2 = ([] : List AlertData) := by
      rw [checkCPUUsagePart_below s1 uT2 tT2 huT2]
    refine ⟨hwarn, hcrit, rfl, ?_, ?_⟩ <;>
    · simp only [AlertManager.checkCPUThresholds]
      rw [hu1, hu2]
      rw [checkTemperaturePart_warning_fires
        { s1 with cpuCriticalActive := false, cpuWarningActive := false } T4 tT2 hT4a hT4b hwarn]
      simp [AlertManager.addAlert, AlertManager.createTemperatureAlert]

/-- C3 witness: for each source, a state whose last critical alert of
that source fired at t = 0 with the critical flag still active sees the
metric drop below the warning threshold at t = 1000 ms (both flags
clear), and a re-crossing at t = 2000 ms — well inside the 30 s
cooldown — fires a new Warning alert for that source. -/
theorem c3_severity_state_independent_witness :
    (AlertManager.checkCPUThresholds
      { AlertManager.initState with cpuCriticalActive := true, lastCPUAlert := some 0 }
      ⟨50, 0⟩ 1000).1.cpuWarningActive = false
    ∧ (AlertManager.checkCPUThresholds
        (AlertManager.checkCPUThresholds
          { AlertManager.initState with cpuCriticalActive := true, lastCPUAlert := some 0 }
          ⟨50, 0⟩ 1000).1 ⟨80, 0⟩ 2000).2.map AlertData.severity
      = [AlertSeverity.Warning]
    ∧ (AlertManager.checkCPUThresholds
        (AlertManager.checkCPUThresholds
          { AlertManager.initState with cpuCriticalActive := true, lastCPUAlert := some 0 }
          ⟨50, 0⟩ 1000).1 ⟨80, 0⟩ 2000).2.map AlertData.source
      = ["CPU"]
    ∧ (AlertManager.checkMemoryThresholds
      { AlertManager.initState with memoryCriticalActive := true, lastMemoryAlert := some 0 }
      { MemoryMonitor.initData 0 with usagePercentage := 50 } 1000).1.memoryWarningActive = false
    ∧ (AlertManager.checkMemoryThresholds
        (AlertManager.checkMemoryThresholds
          { AlertManager.initState with memoryCriticalActive := true, lastMemoryAlert := some 0 }
          { MemoryMonitor.initData 0 with usagePercentage := 50 } 1000).1
        { MemoryMonitor.initData 0 with usagePercentage := 85 } 2000).2.map AlertData.severity
      = [AlertSeverity.Warning]
    ∧ (AlertManager.checkMemoryThresholds
        (AlertManager.checkMemoryThresholds
          { AlertManager.initState with memoryCriticalActive := true, lastMemoryAlert := some 0 }
          { MemoryMonitor.initData 0 with usagePercentage := 50 } 1000).1
        { MemoryMonitor.initData 0 with usagePercentage := 85 } 2000).2.map AlertData.source
      = ["Memory"]
    ∧ (AlertManager.checkCPUThresholds
      { AlertManager.initState with tempCriticalActive := true, lastTempAlert := some 0 }
      ⟨50, 0⟩ 1000).1.tempWarningActive = false
    ∧ (AlertManager.checkCPUThresholds
        (AlertManager.checkCPUThresholds
          { AlertManager.initState with tempCriticalActive := true, lastTempAlert := some 0 }
          ⟨50, 0⟩ 1000).1 ⟨50, 72⟩ 2000).2.map AlertData.severity
      = [AlertSeverity.Warning]
    ∧ (AlertManager.checkCPUThresholds
        (AlertManager.checkCPUThresholds
          { AlertManager.initState with tempCriticalActive := true, lastTempAlert := some 0 }
          ⟨50, 0⟩ 1000).1 ⟨50, 72⟩ 2000).2.map AlertData.source
      = ["Temperature"] := by
  have h := c3_severity_state_independent
    { AlertManager.initState with cpuCriticalActive := true, lastCPUAlert := some 0 }
    { AlertManager.initState with memoryCriticalActive := true, lastMemoryAlert := some 0 }
    { AlertManager.initState with tempCriticalActive := true, lastTempAlert := some 0 }
    50 80 0 0 50 50 0 72 1000 2000 1000 2000 1000 2000
    { MemoryMonitor.initData 0 with usagePercentage := 50 }
    { MemoryMonitor.initData 0 with usagePercentage := 85 }
    (by norm_num [CPU_WARNING_THRESHOLD])
    (by norm_num [TEMP_WARNING_THRESHOLD]) (by norm_num [TEMP_WARNING_THRESHOLD])
    (by norm_num [CPU_WARNING_THRESHOLD]) (by norm_num [CPU_CRITICAL_THRESHOLD])
    (by norm_num [RAM_WARNING_THRESHOLD]) (by norm_num [RAM_WARNING_THRESHOLD])
    (by norm_num [RAM_CRITICAL_THRESHOLD])
    (by norm_num [CPU_WARNING_THRESHOLD]) (by norm_num [CPU_WARNING_THRESHOLD])
    (by norm_num [TEMP_WARNING_THRESHOLD])
    (by norm_num [TEMP_WARNING_THRESHOLD]) (by norm_num [TEMP_CRITICAL_THRESHOLD])
  exact ⟨h.1.1, h.1.2.2.2.1, h.1.2.2.2.2,
         h.2.1.1, h.2.1.2.2.2.1, h.2.1.2.2.2.2,
         h.2.2.1, h.2.2.2.2.2.1, h.2.2.2.2.2.2⟩

theorem natToChars_head (n : ℕ) :
    ∃ d, d < 10 ∧ ∃ cs, natToChars n = Nat.digitChar d :: cs := by
  induction n using Nat.strong_induction_on with
  | _ n ih =>
    by_cases h : n < 10
    · exact ⟨n, h, [], by rw [natToChars, dif_pos h]⟩
    · obtain ⟨d, hd, cs, hcs⟩ := ih (n / 10) (Nat.div_lt_self (by omega) (by omega))
      exact ⟨d, hd, cs ++ [Nat.digitChar (n % 10)],
        by rw [natToChars, dif_neg h, hcs, List.cons_append]⟩

theorem intToChars_head (i : ℤ) :
    ∃ c cs, intToChars i = c :: cs ∧ (c = '-' ∨ ∃ d, d < 10 ∧ c = Nat.digitChar d) := by
  rw [intToChars]
  by_cases h : i < 0
  · exact ⟨'-', natToChars i.natAbs, by rw [if_pos h], Or.inl rfl⟩
  · obtain ⟨d, hd, cs, hcs⟩ := natToChars_head i.natAbs
    exact ⟨Nat.digitChar d, cs, by rw [if_neg h, hcs], Or.inr ⟨d, hd, rfl⟩⟩

theorem containsL_head_nmem (s : List Char) (c : Char) (cs : List Char) (h : c ∉ s) :
    containsL s (c :: cs) = false := by
  induction s with
  | nil => rfl
  | cons a rest ih =>
    have hne : c ≠ a := fun hh => h (hh ▸ List.mem_cons_self a rest)
    have h2 : c ∉ rest := fun hh => h (List.mem_cons_of_mem a hh)
    simp [containsL, startsWithL, hne, ih h2]

/-- No digit and no minus sign occurs in the three source strings used by
the alert creation helpers. -/
theorem alert_source_chars (d : ℕ) (hd : d < 10) :
    (Nat.digitChar d ∉ "CPU".data ∧ '-' ∉ "CPU".data)
    ∧ (Nat.digitChar d ∉ "Memory".data ∧ '-' ∉ "Memory".data)
    ∧ (Nat.digitChar d ∉ "Temperature".data ∧ '-' ∉ "Temperature".data) := by
  revert hd
  revert d
  decide

/-- The decimal rendering of an id is never contained in any of the three
alert source strings. -/
theorem source_not_contains_id (src : String)
    (hsrc : src = "CPU" ∨ src = "Memory" ∨ src = "Temperature") (i : ℤ) :
    containsL src.data (intToChars i) = false := by
  obtain ⟨c, cs, heq, hc⟩ := intToChars_head i
  rw [heq]
  apply containsL_head_nmem
  rcases hc with hminus | ⟨d, hd, hdigit⟩
  · subst hminus
    rcases hsrc with h | h | h <;> subst h
    · exact (alert_source_chars 0 (by omega)).1.2
    · exact (alert_source_chars 0 (by omega)).2.1.2
    · exact (alert_source_chars 0 (by omega)).2.2.2
  · subst hdigit
    rcases hsrc with h | h | h <;> subst h
    · exact (alert_source_chars d hd).1.1
    · exact (alert_source_chars d hd).2.1.1
    · exact (alert_source_chars d hd).2.2.1

theorem acknowledgeAlertGo_nomatch (alertId : ℤ) (alerts : List AlertData)
    (h : ∀ a ∈ alerts, containsL a.source.data (intToChars alertId) = false) :
    AlertManager.acknowledgeAlertGo alertId alerts = (alerts, false) := by
  induction alerts with
  | nil => rfl
  | cons a rest ih =>
    rw [AlertManager.acknowledgeAlertGo]
    rw [if_neg (by rw [h a (List.mem_cons_self a rest)]; simp)]
    rw [ih fun b hb => h b (List.mem_cons_of_mem a hb)]

/-- C8: `acknowledgeAlert(id)` with an id matching no stored alert (no
alert's source string contains the decimal rendering of the id) leaves
the alert log unchanged and emits no notification; and `getActiveAlerts`
never returns an acknowledged alert, for every log. -/
theorem c8_acknowledge_noop_and_active (alerts : List AlertData) (alertId : ℤ)
    (hnomatch : ∀ a ∈ alerts, containsL a.source.data (intToChars alertId) = false) :
    AlertManager.acknowledgeAlert alerts alertId = (alerts, false)
    ∧ ∀ (l : List AlertData), ∀ a ∈ AlertManager.getActiveAlerts l, a.acknowledged = false := by
  constructor
  · exact acknowledgeAlertGo_nomatch alertId alerts hnomatch
  · intro l a ha
    rw [AlertManager.getActiveAlerts] at ha
    have := (List.mem_filter.mp ha).2
    simpa using this

/-- C8 witness: acknowledging id 7 on a log of one CPU alert (whose
source contains no digit) is a no-op, and the active list of a log with
one acknowledged alert omits it. -/
theorem c8_acknowledge_noop_and_active_witness :
    AlertManager.acknowledgeAlert
        [AlertManager.createCPUAlert AlertSeverity.Critical "CPU usage exceed critical threshold" 95 "%"] 7
      = ([AlertManager.createCPUAlert AlertSeverity.Critical "CPU usage exceed critical threshold" 95 "%"], false)
    ∧ ∀ a ∈ AlertManager.getActiveAlerts
        [{ AlertManager.createCPUAlert AlertSeverity.Critical "CPU usage exceed critical threshold" 95 "%"
            with acknowledged := true }], a.acknowledged = false := by
  have h := c8_acknowledge_noop_and_active
    [AlertManager.createCPUAlert AlertSeverity.Critical "CPU usage exceed critical threshold" 95 "%"] 7
    (by
      intro a ha
      rw [List.mem_singleton] at ha
      subst ha
      exact source_not_contains_id _ (Or.inl rfl) 7)
  exact ⟨h.1, h.2 _⟩

/-- C9 (implicit behaviour of the id matching): `acknowledgeAlert`
selects by testing whether the alert's source CONTAINS the decimal
rendering of the id; every alert built by the creation helpers carries
source "CPU", "Memory" or "Temperature", none of which contains a digit
or a minus sign, so on a log of such alerts `acknowledgeAlert` is a no-op
for every integer id. -/
theorem c9_acknowledge_never_matches (alerts : List AlertData) (alertId : ℤ)
    (hsrc : ∀ a ∈ alerts, a.source = "CPU" ∨ a.source = "Memory" ∨ a.source = "Temperature") :
    AlertManager.acknowledgeAlert alerts alertId = (alerts, false)
    ∧ (∀ sev msg v unit, (AlertManager.createCPUAlert sev msg v unit).source = "CPU")
    ∧ (∀ sev msg v unit, (AlertManager.createMemoryAlert sev msg v unit).source = "Memory")
    ∧ (∀ sev t, (AlertManager.createTemperatureAlert sev t).source = "Temperature") := by
  refine ⟨?_, fun _ _ _ _ => rfl, fun _ _ _ _ => rfl, fun _ _ => rfl⟩
  exact acknowledgeAlertGo_nomatch alertId alerts
    (fun a ha => source_not_contains_id a.source (hsrc a ha) alertId)

/-- C9 witness: a log holding one alert from each creation helper is left
unchanged by `acknowledgeAlert` at ids 0, 42 and -3. -/
theorem c9_acknowledge_never_matches_witness :
    AlertManager.acknowledgeAlert
        [AlertManager.createCPUAlert AlertSeverity.Warning "CPU usage high" 80 "%",
         AlertManager.createMemoryAlert AlertSeverity.Critical "Memory usage critical" 96 "%",
         AlertManager.createTemperatureAlert AlertSeverity.Warning 72] 0
      = ([AlertManager.createCPUAlert AlertSeverity.Warning "CPU usage high" 80 "%",
          AlertManager.createMemoryAlert AlertSeverity.Critical "Memory usage critical" 96 "%",
          AlertManager.createTemperatureAlert AlertSeverity.Warning 72], false)
    ∧ AlertManager.acknowledgeAlert
        [AlertManager.createCPUAlert AlertSeverity.Warning "CPU usage high" 80 "%",
         AlertManager.createMemoryAlert AlertSeverity.Critical "Memory usage critical" 96 "%",
         AlertManager.createTemperatureAlert AlertSeverity.Warning 72] 42
      = ([AlertManager.createCPUAlert AlertSeverity.Warning "CPU usage high" 80 "%",
          AlertManager.createMemoryAlert AlertSeverity.Critical "Memory usage critical" 96 "%",
          AlertManager.createTemperatureAlert AlertSeverity.Warning 72], false)
    ∧ AlertManager.acknowledgeAlert
        [AlertManager.createCPUAlert AlertSeverity.Warning "CPU usage high" 80 "%",
         AlertManager.createMemoryAlert AlertSeverity.Critical "Memory usage critical" 96 "%",
         AlertManager.createTemperatureAlert AlertSeverity.Warning 72] (-3)
      = ([AlertManager.createCPUAlert AlertSeverity.Warning "CPU usage high" 80 "%",
          AlertManager.createMemoryAlert AlertSeverity.Critical "Memory usage critical" 96 "%",
          AlertManager.createTemperatureAlert AlertSeverity.Warning 72], false) := by
  have hsrc : ∀ a ∈ [AlertManager.createCPUAlert AlertSeverity.Warning "CPU usage high" 80 "%",
         AlertManager.createMemoryAlert AlertSeverity.Critical "Memory usage critical" 96 "%",
         AlertManager.createTemperatureAlert AlertSeverity.Warning 72],
      a.source = "CPU" ∨ a.source = "Memory" ∨ a.source = "Temperature" := by
    intro a ha
    simp only [List.mem_cons, List.mem_singleton, List.not_mem_nil, or_false] at ha
    rcases ha with h | h | h
    · subst h; exact Or.inl rfl
    · subst h; exact Or.inr (Or.inl rfl)
    · subst h; exact Or.inr (Or.inr rfl)
  exact ⟨(c9_acknowledge_never_matches _ 0 hsrc).1,
         (c9_acknowledge_never_matches _ 42 hsrc).1,
         (c9_acknowledge_never_matches _ (-3) hsrc).1⟩

theorem getLast_append_singleton {α : Type} (l : List α) (a : α) :
    (l ++ [a]).getLast? = some a := by
  induction l with
  | nil => rfl
  | cons b t ih =>
    cases t with
    | nil => rfl
    | cons c t2 =>
      rw [List.cons_append, List.cons_append, List.getLast?_cons_cons]
      rw [List.cons_append] at ih
      exact ih


/-- C10: `addAlert` stores a copy of the supplied alert whose timestamp
is overwritten with the current time, all other fields unchanged; the
stored copy is the last entry of the log (the overflow trim evicts only
the oldest entry) and is also the payload of the `alertAdded`
notification.  The hypothesis `0 < maxAlertsHistory` holds in every
reachable state (the constructor sets 200 and `setMaxAlertsHistory`
clamps to `[50, 1000]`). -/
theorem c10_addAlert_overwrites_timestamp (s : AlertManager.AlertMgrState)
    (alert : AlertData) (now : ℤ) (hmax : 0 < s.maxAlertsHistory) :
    (AlertManager.addAlert s alert now).stored.timestamp = now
    ∧ (AlertManager.addAlert s alert now).stored.severity = alert.severity
    ∧ (AlertManager.addAlert s alert now).stored.title = alert.title
    ∧ (AlertManager.addAlert s alert now).stored.message = alert.message
    ∧ (AlertManager.addAlert s alert now).stored.source = alert.source
    ∧ (AlertManager.addAlert s alert now).stored.acknowledged = alert.acknowledged
    ∧ (AlertManager.addAlert s alert now).state.alerts.getLast?
        = some (AlertManager.addAlert s alert now).stored := by
  refine ⟨rfl, rfl, rfl, rfl, rfl, rfl, ?_⟩
  rw [AlertManager.addAlert]
  simp only
  split
  · rename_i hlong
    rcases hs : s.alerts with _ | ⟨b, t⟩
    · exfalso
      rw [hs] at hlong
      simp at hlong
      omega
    · rw [List.cons_append, List.drop_one, List.tail_cons]
      exact getLast_append_singleton t _
  · exact getLast_append_singleton s.alerts _

/-- C10 witness: adding an alert carrying timestamp 999 at time 5 to the
fresh manager stores it with timestamp 5 and otherwise identical fields,
as the last (only) log entry. -/
theorem c10_addAlert_overwrites_timestamp_witness :
    (AlertManager.addAlert AlertManager.initState
        { severity := AlertSeverity.Warning, title := "T", message := "M",
          source := "CPU", timestamp := 999, acknowledged := false } 5).stored.timestamp = 5
    ∧ (AlertManager.addAlert AlertManager.initState
        { severity := AlertSeverity.Warning, title := "T", message := "M",
          source := "CPU", timestamp := 999, acknowledged := false } 5).stored.severity
        = AlertSeverity.Warning
    ∧ (AlertManager.addAlert AlertManager.initState
        { severity := AlertSeverity.Warning, title := "T", message := "M",
          source := "CPU", timestamp := 999, acknowledged := false } 5).state.alerts.getLast?
        = some (AlertManager.addAlert AlertManager.initState
            { severity := AlertSeverity.Warning, title := "T", message := "M",
              source := "CPU", timestamp := 999, acknowledged := false } 5).stored := by
  have h := c10_addAlert_overwrites_timestamp AlertManager.initState
    { severity := AlertSeverity.Warning, title := "T", message := "M",
      source := "CPU", timestamp := 999, acknowledged := false } 5 (by decide)
  exact ⟨h.1, h.2.1, h.2.2.2.2.2.2⟩
